import Mathlib

/-!
Verification of the surface ROV control station against its specification.

The Python sources are shallowly embedded: floats are modelled as rationals,
dictionaries as association lists, and raising code as `Except`-valued
functions.  Every definition mirrors one function of the repository;
the doc comment of each definition names its source.
-/

namespace Surface

/-- Python exceptions raised by the embedded code. -/
inductive Err
  | keyError (key : String)
  | valueError (msg : String)
  | controlSystemError (msg : String)
  | dataManagerError (msg : String)
  | networkingError (msg : String)
  deriving Repr, DecidableEq

instance {ε α : Type} [DecidableEq ε] [DecidableEq α] : DecidableEq (Except ε α) := fun
  | .ok a, .ok b =>
      if h : a = b then .isTrue (by rw [h])
      else .isFalse (by intro he; cases he; exact h rfl)
  | .ok _, .error _ => .isFalse (by intro h; cases h)
  | .error _, .ok _ => .isFalse (by intro h; cases h)
  | .error a, .error b =>
      if h : a = b then .isTrue (by rw [h])
      else .isFalse (by intro he; cases he; exact h rfl)

@[simp] theorem exceptBind_ok {ε α β : Type} (a : α) (f : α → Except ε β) :
    (Except.ok a >>= f) = f a := rfl

@[simp] theorem exceptBind_error {ε α β : Type} (e : ε) (f : α → Except ε β) :
    (Except.error e >>= f) = Except.error e := rfl

@[simp] theorem exceptPure {ε α : Type} (a : α) : (pure a : Except ε α) = Except.ok a := rfl

@[simp] theorem exceptMap_ok {ε α β : Type} (g : α → β) (a : α) :
    (Except.ok a : Except ε α).map g = Except.ok (g a) := rfl

@[simp] theorem exceptMap_error {ε α β : Type} (g : α → β) (e : ε) :
    (Except.error e : Except ε α).map g = Except.error e := rfl

/-- Python `str.startswith`, on the character lists of the strings. -/
def pyStartsWith (s pre : String) : Bool := pre.data.isPrefixOf s.data

/-! ## Constants (`surface/constants/control.py`) -/

def NORMALISATION_PRECISION : ℕ := 3

def CONTROL_NORM_MAX : ℚ := 1
def CONTROL_NORM_IDLE : ℚ := 0
def CONTROL_NORM_MIN : ℚ := -1

def THRUSTER_MAX : ℚ := 1900
def THRUSTER_IDLE : ℚ := 1500
def THRUSTER_MIN : ℚ := 1100
def GRIPPER_MAX : ℚ := 1600
def GRIPPER_IDLE : ℚ := 1500
def GRIPPER_MIN : ℚ := 1400
def CORD_MAX : ℚ := 1600
def CORD_IDLE : ℚ := 1500
def CORD_MIN : ℚ := 1400

def CONTROL_AUTONOMOUS_NAME : String := "autonomous"
def CONTROL_MANUAL_NAME : String := "manual"
def CONTROL_MANAGER_NAME : String := "manager"

/-! ## Numeric helpers modelling Python primitives -/

/-- Python `round` to the nearest integer: round half to even (banker's rounding). -/
def pyRoundInt (q : ℚ) : ℤ :=
  let f := ⌊q⌋
  let r := q - (f : ℚ)
  if r < 1/2 then f
  else if 1/2 < r then f + 1
  else if f % 2 = 0 then f else f + 1

/-- Python `round(q, ndigits)`. -/
def pyRound (q : ℚ) (ndigits : ℕ) : ℚ :=
  (pyRoundInt (q * 10 ^ ndigits) : ℚ) / 10 ^ ndigits

/-- Python `int()` applied to a float: truncation toward zero. -/
def pyInt (q : ℚ) : ℤ :=
  if q < 0 then ⌈q⌉ else ⌊q⌋

/-! ## `surface/control/common.py` -/

/-- `normalise` from `surface/control/common.py`: min-max rescaling of `value`
from `[current_min, current_max]` into `[intended_min, intended_max]`,
raising `ValueError` on a degenerate range or an out-of-range value,
rounding the result to `NORMALISATION_PRECISION` digits. -/
def normalise (value current_min current_max intended_min intended_max : ℚ) :
    Except Err ℚ :=
  if current_min = current_max ∨ intended_min = intended_max then
    .error (.valueError "Minimum and maximum (both current and intended) must not be equal")
  else if ¬(current_max ≥ value ∧ value ≥ current_min) then
    .error (.valueError "Value is not between the current minimum and maximum")
  else
    .ok (pyRound
      (intended_min +
        (value - current_min) * (intended_max - intended_min) / (current_max - current_min))
      NORMALISATION_PRECISION)

/-- Recogniser for a raised `ValueError`. -/
def raisesValueError (r : Except Err ℚ) : Prop :=
  ∃ msg, r = .error (.valueError msg)

/-! ## `surface/control/motion.py` -/

/-- A `Motion`: a named scalar command. -/
structure Motion where
  name : String
  value : ℚ
  deriving Repr, DecidableEq

/-- `Motion.__init__`: the value starts at the idle constant. -/
def Motion.init (name : String) : Motion := ⟨name, CONTROL_NORM_IDLE⟩

/-- The `Motion.value` setter.  The source guards with the Python chained
comparison `CONTROL_NORM_MIN > value > CONTROL_NORM_MAX`, which means
`CONTROL_NORM_MIN > value and value > CONTROL_NORM_MAX`. -/
def Motion.setValue (m : Motion) (v : ℚ) : Except Err Motion :=
  if CONTROL_NORM_MIN > v ∧ v > CONTROL_NORM_MAX then
    .error (.controlSystemError "value is not normalised")
  else
    .ok { m with value := v }

/-! ## `surface/control/converter.py` -/

/-- `Converter._to_thruster_value`. -/
def toThrusterValue (value : ℚ) : Except Err ℤ :=
  (normalise value CONTROL_NORM_MIN CONTROL_NORM_MAX THRUSTER_MIN THRUSTER_MAX).map pyInt

/-- `Converter._thruster_hfp` as a function of the three dict reads.
Python float truthiness (`if surge and yaw`) is non-zero-ness. -/
def thrusterHfp (surge yaw sway : ℚ) : Except Err ℤ :=
  let value :=
    if surge ≠ 0 ∧ yaw ≠ 0 then
      if surge < CONTROL_NORM_IDLE then -surge else -yaw
    else if surge ≠ 0 then -surge
    else if sway ≠ 0 then sway
    else if yaw ≠ 0 then -yaw
    else CONTROL_NORM_IDLE
  toThrusterValue value

/-- `Converter._thruster_hfs`. -/
def thrusterHfs (surge yaw sway : ℚ) : Except Err ℤ :=
  let value :=
    if surge ≠ 0 ∧ yaw ≠ 0 then
      if surge < CONTROL_NORM_IDLE then -surge else yaw
    else if surge ≠ 0 then -surge
    else if sway ≠ 0 then -sway
    else if yaw ≠ 0 then yaw
    else CONTROL_NORM_IDLE
  toThrusterValue value

/-- `Converter._thruster_hap`. -/
def thrusterHap (surge yaw sway : ℚ) : Except Err ℤ :=
  let value :=
    if surge ≠ 0 ∧ yaw ≠ 0 then
      if surge < CONTROL_NORM_IDLE then -yaw else surge
    else if surge ≠ 0 then surge
    else if sway ≠ 0 then sway
    else if yaw ≠ 0 then yaw
    else CONTROL_NORM_IDLE
  toThrusterValue value

/-- `Converter._thruster_has`. -/
def thrusterHas (surge yaw sway : ℚ) : Except Err ℤ :=
  let value :=
    if surge ≠ 0 ∧ yaw ≠ 0 then
      if surge < CONTROL_NORM_IDLE then yaw else surge
    else if surge ≠ 0 then surge
    else if sway ≠ 0 then -sway
    else if yaw ≠ 0 then -yaw
    else CONTROL_NORM_IDLE
  toThrusterValue value

/-- `Converter._thruster_vfp`. -/
def thrusterVfp (heave pitch roll : ℚ) : Except Err ℤ :=
  let value :=
    if heave ≠ 0 then heave
    else if pitch ≠ 0 then -pitch
    else if roll ≠ 0 then roll
    else CONTROL_NORM_IDLE
  toThrusterValue value

/-- `Converter._thruster_vfs`. -/
def thrusterVfs (heave pitch roll : ℚ) : Except Err ℤ :=
  let value :=
    if heave ≠ 0 then heave
    else if pitch ≠ 0 then -pitch
    else if roll ≠ 0 then -roll
    else CONTROL_NORM_IDLE
  toThrusterValue value

/-- `Converter._thruster_vap`. -/
def thrusterVap (heave pitch roll : ℚ) : Except Err ℤ :=
  let value :=
    if heave ≠ 0 then heave
    else if pitch ≠ 0 then pitch
    else if roll ≠ 0 then roll
    else CONTROL_NORM_IDLE
  toThrusterValue value

/-- `Converter._thruster_vas`. -/
def thrusterVas (heave pitch roll : ℚ) : Except Err ℤ :=
  let value :=
    if heave ≠ 0 then heave
    else if pitch ≠ 0 then pitch
    else if roll ≠ 0 then -roll
    else CONTROL_NORM_IDLE
  toThrusterValue value

/-- `Converter._thruster_micro`. -/
def thrusterMicro (micro : ℚ) : Except Err ℤ :=
  toThrusterValue (if micro ≠ 0 then micro else CONTROL_NORM_IDLE)

/-- `Converter._cord`. -/
def converterCord (cord : ℚ) : Except Err ℤ :=
  (normalise (if cord ≠ 0 then cord else CONTROL_NORM_IDLE)
      CONTROL_NORM_MIN CONTROL_NORM_MAX CORD_MIN CORD_MAX).map pyInt

/-- `Converter._gripper`. -/
def converterGripper (gripper : ℚ) : Except Err ℤ :=
  (normalise (if gripper ≠ 0 then gripper else CONTROL_NORM_IDLE)
      CONTROL_NORM_MIN CONTROL_NORM_MAX GRIPPER_MIN GRIPPER_MAX).map pyInt

/-! ## `surface/athena/data_segment.py`

The Redis cache is an association list from redis keys to stored values;
`msgpack` serialisation round-trips losslessly and is modelled as the
identity, so a segment holding values of type `α` stores `α` directly. -/

/-- `Redis.get`: first binding of the key, if any. -/
def cacheLookup {α : Type} : List (String × α) → String → Option α
  | [], _ => none
  | (k2, v) :: rest, k => if k2 = k then some v else cacheLookup rest k

/-- `Redis.exists`. -/
def cacheExists {α : Type} (c : List (String × α)) (k : String) : Bool :=
  (cacheLookup c k).isSome

/-- `Redis.set`: overwrite the binding if present, append it otherwise. -/
def cacheSet {α : Type} : List (String × α) → String → α → List (String × α)
  | [], k, v => [(k, v)]
  | (k2, v2) :: rest, k, v =>
      if k2 = k then (k2, v) :: rest else (k2, v2) :: cacheSet rest k v

/-- A data segment: its name, the keys declared at `__init__`, and the
backing cache it shares with every other segment. -/
structure DataSegment (α : Type) where
  name : String
  keys : List String
  cache : List (String × α)

/-- `DataSegment._build_redis_key`. -/
def DataSegment.redisKey {α : Type} (s : DataSegment α) (key : String) : String :=
  s.name ++ ":" ++ key

/-- `DataSegment.__init__`: record the declared keys and write every default
into the cache (overwriting pre-existing bindings). -/
def DataSegment.init {α : Type} (name : String) (cache : List (String × α))
    (data : List (String × α)) : DataSegment α :=
  { name := name
    keys := data.map Prod.fst
    cache := data.foldl (fun c kv => cacheSet c (name ++ ":" ++ kv.1) kv.2) cache }

/-- `DataSegment.__getitem__`: raises unless the key was declared at
`__init__`; a declared key missing from the cache makes
`msgpack.unpackb(None)` raise, also modelled as an error. -/
def DataSegment.getItem {α : Type} (s : DataSegment α) (key : String) : Except Err α :=
  if key ∈ s.keys then
    match cacheLookup s.cache (s.redisKey key) with
    | some v => .ok v
    | none => .error (.dataManagerError ("Failed to retrieve value using key " ++ key))
  else
    .error (.dataManagerError
      ("Failed to retrieve value using key " ++ key ++ " - key not registered"))

/-- `DataSegment.__setitem__`: raises unless the key was declared. -/
def DataSegment.setItem {α : Type} (s : DataSegment α) (key : String) (v : α) :
    Except Err (DataSegment α) :=
  if key ∈ s.keys then
    .ok { s with cache := cacheSet s.cache (s.redisKey key) v }
  else
    .error (.dataManagerError ("Failed to set value using key " ++ key ++ " - key not registered"))

/-- `DataSegment.fetch`: best-effort retrieval — keys whose redis key is
absent from the cache are skipped with a warning, the rest go through
`__getitem__`. -/
def DataSegment.fetch {α : Type} (s : DataSegment α) : List String → Except Err (List (String × α))
  | [] => .ok []
  | k :: rest =>
      if cacheExists s.cache (s.redisKey k) then do
        let v ← s.getItem k
        let tail ← s.fetch rest
        return (k, v) :: tail
      else
        s.fetch rest

/-- `DataSegment.update`: best-effort bulk write — keys whose redis key is
absent from the cache are skipped with a warning, the rest go through
`__setitem__`. -/
def DataSegment.update {α : Type} (s : DataSegment α) : List (String × α) → Except Err (DataSegment α)
  | [] => .ok s
  | (k, v) :: rest =>
      if cacheExists s.cache (s.redisKey k) then do
        let s2 ← s.setItem k v
        s2.update rest
      else
        s.update rest

/-- Strict retrieval of a list of keys through `__getitem__` (helper for `all`). -/
def DataSegment.getItems {α : Type} (s : DataSegment α) : List String → Except Err (List (String × α))
  | [] => .ok []
  | k :: rest => do
      let v ← s.getItem k
      let tail ← s.getItems rest
      return (k, v) :: tail

/-- `DataSegment.all`: every declared key through `__getitem__`. -/
def DataSegment.all {α : Type} (s : DataSegment α) : Except Err (List (String × α)) :=
  s.getItems s.keys

/-- Reachability invariant of a data segment: a redis key of this segment is
present in the backing cache exactly when its key was declared.
`__init__` establishes it on a fresh cache and every operation preserves it. -/
def DataSegment.Inv {α : Type} (s : DataSegment α) : Prop :=
  ∀ k : String, cacheExists s.cache (s.redisKey k) = true ↔ k ∈ s.keys

/-! ## `surface/enums.py` and `surface/constants/athena.py` -/

/-- `DrivingMode`. -/
inductive DrivingMode
  | MANUAL
  | AUTONOMOUS
  | ASSISTED
  deriving Repr, DecidableEq

/-- `DrivingMode.value` (the store persists the numeric value). -/
def DrivingMode.value : DrivingMode → ℚ
  | .MANUAL => 0
  | .AUTONOMOUS => 1
  | .ASSISTED => 2

/-- `DrivingMode(v)`: decode a stored value, raising `ValueError` otherwise. -/
def DrivingMode.ofValue (q : ℚ) : Except Err DrivingMode :=
  if q = 0 then .ok .MANUAL
  else if q = 1 then .ok .AUTONOMOUS
  else if q = 2 then .ok .ASSISTED
  else .error (.valueError "not a valid DrivingMode")

def RK_CONTROL_DRIVING_MODE : String := "driving-mode"

/-- `DATA_CONTROL` from `surface/constants/athena.py`: the declared keys and
defaults of the "control" partition — six DOF axes per model plus the
driving-mode key.  `DrivingMode.MANUAL.value = 0` is the mode default. -/
def DATA_CONTROL : List (String × ℚ) :=
  [ ("manager-yaw", CONTROL_NORM_IDLE)
  , ("manager-pitch", CONTROL_NORM_IDLE)
  , ("manager-roll", CONTROL_NORM_IDLE)
  , ("manager-sway", CONTROL_NORM_IDLE)
  , ("manager-surge", CONTROL_NORM_IDLE)
  , ("manager-heave", CONTROL_NORM_IDLE)
  , ("manual-yaw", CONTROL_NORM_IDLE)
  , ("manual-pitch", CONTROL_NORM_IDLE)
  , ("manual-roll", CONTROL_NORM_IDLE)
  , ("manual-sway", CONTROL_NORM_IDLE)
  , ("manual-surge", CONTROL_NORM_IDLE)
  , ("manual-heave", CONTROL_NORM_IDLE)
  , ("autonomous-yaw", CONTROL_NORM_IDLE)
  , ("autonomous-pitch", CONTROL_NORM_IDLE)
  , ("autonomous-roll", CONTROL_NORM_IDLE)
  , ("autonomous-sway", CONTROL_NORM_IDLE)
  , ("autonomous-surge", CONTROL_NORM_IDLE)
  , ("autonomous-heave", CONTROL_NORM_IDLE)
  , ("driving-mode", 0) ]

/-- Declared key set of the "control" partition. -/
def controlKeys : List String := DATA_CONTROL.map Prod.fst

/-- A reachable cache of the "control" partition: every declared key (and
nothing else under the `control:` prefix) is present, with arbitrary
current values given by `f`. -/
def controlCache (f : String → ℚ) : List (String × ℚ) :=
  controlKeys.map (fun k => ("control" ++ ":" ++ k, f k))

/-- A reachable "control" data segment. -/
def controlSeg (f : String → ℚ) : DataSegment ℚ :=
  ⟨"control", controlKeys, controlCache f⟩

/-! ## `surface/control/model.py` -/

/-- Python dict indexing `d[k]`: `KeyError` when absent. -/
def dictLookup (d : List (String × ℚ)) (k : String) : Except Err ℚ :=
  match cacheLookup d k with
  | some v => .ok v
  | none => .error (.keyError k)

/-- A `ControlModel`: its name and its nine `Motion` values. -/
structure ControlModelState where
  name : String
  yaw : Motion
  pitch : Motion
  roll : Motion
  sway : Motion
  surge : Motion
  heave : Motion
  cord : Motion
  gripper : Motion
  micro : Motion
  deriving Repr, DecidableEq

/-- `ControlModel.__init__`. -/
def ControlModelState.mkModel (name : String) : ControlModelState :=
  ⟨name, Motion.init "yaw", Motion.init "pitch", Motion.init "roll", Motion.init "sway",
    Motion.init "surge", Motion.init "heave", Motion.init "cord", Motion.init "gripper",
    Motion.init "micro"⟩

/-- The `ControlModel.motions` getter: the dictionary view, in source order. -/
def ControlModelState.motionsGet (m : ControlModelState) : List (String × ℚ) :=
  [ ("yaw", m.yaw.value)
  , ("pitch", m.pitch.value)
  , ("roll", m.roll.value)
  , ("sway", m.sway.value)
  , ("surge", m.surge.value)
  , ("heave", m.heave.value)
  , ("cord", m.cord.value)
  , ("gripper", m.gripper.value)
  , ("micro", m.micro.value) ]

/-- The `ControlModel.motions` setter: field-by-field assignment
`self.yaw = values["yaw"]; ...` in source order; each indexing can raise
`KeyError` and each assignment goes through the `Motion.value` setter. -/
def ControlModelState.motionsSet (m : ControlModelState) (values : List (String × ℚ)) :
    Except Err ControlModelState := do
  let v ← dictLookup values "yaw"
  let mo ← m.yaw.setValue v
  let m := { m with yaw := mo }
  let v ← dictLookup values "pitch"
  let mo ← m.pitch.setValue v
  let m := { m with pitch := mo }
  let v ← dictLookup values "roll"
  let mo ← m.roll.setValue v
  let m := { m with roll := mo }
  let v ← dictLookup values "sway"
  let mo ← m.sway.setValue v
  let m := { m with sway := mo }
  let v ← dictLookup values "surge"
  let mo ← m.surge.setValue v
  let m := { m with surge := mo }
  let v ← dictLookup values "heave"
  let mo ← m.heave.setValue v
  let m := { m with heave := mo }
  let v ← dictLookup values "cord"
  let mo ← m.cord.setValue v
  let m := { m with cord := mo }
  let v ← dictLookup values "gripper"
  let mo ← m.gripper.setValue v
  let m := { m with gripper := mo }
  let v ← dictLookup values "micro"
  let mo ← m.micro.setValue v
  return { m with micro := mo }

/-- `ControlModel._build_key`. -/
def buildKey (name key : String) : String := name ++ "-" ++ key

/-- `ControlModel.mode` getter: read and decode the driving-mode key of the
"control" partition (strict indexing). -/
def readMode (control : DataSegment ℚ) : Except Err DrivingMode := do
  let v ← control.getItem RK_CONTROL_DRIVING_MODE
  DrivingMode.ofValue v

/-- `ControlModel.mode` setter: strict write of the numeric mode value. -/
def writeMode (control : DataSegment ℚ) (mode : DrivingMode) : Except Err (DataSegment ℚ) :=
  control.setItem RK_CONTROL_DRIVING_MODE mode.value

/-- `ControlModel.push`: best-effort `update` of the "control" partition
with every motion, namespaced by the model's name. -/
def ControlModelState.push (m : ControlModelState) (control : DataSegment ℚ) :
    Except Err (DataSegment ℚ) :=
  control.update (m.motionsGet.map (fun kv => (buildKey m.name kv.1, kv.2)))

/-! ## `surface/control/converter.py` — `Converter.convert` -/

/-- `Converter.convert`: the eleven actuator values, in source order.
Each helper indexes the motions dict strictly. -/
def converterConvert (motions : List (String × ℚ)) : Except Err (List (String × ℤ)) := do
  let surge ← dictLookup motions "surge"
  let yaw ← dictLookup motions "yaw"
  let sway ← dictLookup motions "sway"
  let heave ← dictLookup motions "heave"
  let pitch ← dictLookup motions "pitch"
  let roll ← dictLookup motions "roll"
  let micro ← dictLookup motions "micro"
  let cord ← dictLookup motions "cord"
  let gripper ← dictLookup motions "gripper"
  let hfp ← thrusterHfp surge yaw sway
  let hfs ← thrusterHfs surge yaw sway
  let hap ← thrusterHap surge yaw sway
  let has ← thrusterHas surge yaw sway
  let vfp ← thrusterVfp heave pitch roll
  let vfs ← thrusterVfs heave pitch roll
  let vap ← thrusterVap heave pitch roll
  let vas ← thrusterVas heave pitch roll
  let tm ← thrusterMicro micro
  let mc ← converterCord cord
  let mg ← converterGripper gripper
  return [ ("T_HFP", hfp), ("T_HFS", hfs), ("T_HAP", hap), ("T_HAS", has)
         , ("T_VFP", vfp), ("T_VFS", vfs), ("T_VAP", vap), ("T_VAS", vas)
         , ("T_M", tm), ("M_C", mc), ("M_G", mg) ]

/-! ## `surface/control/control_manager.py` -/

/-- The keys of the `_manual` dictionary built in `ControlManager.__init__`:
the `DATA_CONTROL` keys starting with `CONTROL_MANUAL_NAME`. -/
def managerManualKeys : List String :=
  (DATA_CONTROL.map Prod.fst).filter (fun k => pyStartsWith k CONTROL_MANUAL_NAME)

/-- `ControlManager._pull`: both the manual and the autonomous dictionary
are fetched with `self._manual.keys()` — the source uses the manual key
set for the autonomous fetch as well. -/
def managerPull (control : DataSegment ℚ) (manualKeys : List String) :
    Except Err (List (String × ℚ) × List (String × ℚ)) := do
  let manual ← control.fetch manualKeys
  let autonomous ← control.fetch manualKeys
  return (manual, autonomous)

/-- The `ASSISTED` comprehension of `ControlManager._merge`: per manual key,
the manual value when it differs from `CONTROL_NORM_IDLE`, otherwise the
autonomous dictionary indexed — strictly — with that same (manual) key. -/
def assistedMerge : List (String × ℚ) → List (String × ℚ) → Except Err (List (String × ℚ))
  | [], _ => .ok []
  | (k, v) :: rest, autonomous => do
      let value ← if v ≠ CONTROL_NORM_IDLE then pure v else dictLookup autonomous k
      let tail ← assistedMerge rest autonomous
      return (k, value) :: tail

/-- Python `key.split("-")[-1]` on a list of characters. -/
def lastSegAux : List Char → List Char → List Char
  | [], acc => acc
  | c :: rest, acc => if c = '-' then lastSegAux rest [] else lastSegAux rest (acc ++ [c])

/-- Python `key.split("-")[-1]`. -/
def lastDashSegment (k : String) : String := ⟨lastSegAux k.data []⟩

/-- `ControlManager._merge`: select the data dictionary by driving mode and
strip every key down to its last dash-separated segment. -/
def managerMerge (mode : DrivingMode) (manual autonomous : List (String × ℚ)) :
    Except Err (List (String × ℚ)) := do
  let data ←
    match mode with
    | .MANUAL => pure manual
    | .AUTONOMOUS => pure autonomous
    | .ASSISTED => assistedMerge manual autonomous
  return data.map (fun kv => (lastDashSegment kv.1, kv.2))

/-- `ControlManager.update`: pull, merge (reading the driving mode and
assigning the bulk `motions` setter), convert, push — pushing both the
motion set into "control" and the converted values into "transmission". -/
def managerUpdate (control : DataSegment ℚ) (transmission : DataSegment ℤ)
    (mgr : ControlModelState) (manualKeys : List String) :
    Except Err (ControlModelState × DataSegment ℚ × DataSegment ℤ) := do
  let pulled ← managerPull control manualKeys
  let mode ← readMode control
  let merged ← managerMerge mode pulled.1 pulled.2
  let mgr2 ← mgr.motionsSet merged
  let converted ← converterConvert mgr2.motionsGet
  let control2 ← mgr2.push control
  let transmission2 ← transmission.update converted
  return (mgr2, control2, transmission2)

/-! ## `surface/networking/connection.py` -/

/-- `ConnectionStatus`. -/
inductive ConnectionStatus
  | CONNECTED
  | DISCONNECTED
  | CONNECTING
  | DISCONNECTING
  | IDLE
  deriving Repr, DecidableEq

/-- `Connection._cleanup`: when the underlying socket shutdown/close or
worker termination raises `OSError`, it is re-raised as
`NetworkingException` unless `ignore_errors` is set. -/
def connectionCleanup (ignoreErrors osErrorRaised : Bool) : Option Err :=
  if osErrorRaised then
    if ignoreErrors then none
    else some (.networkingError "Failed to cleanup the connection")
  else none

/-- `Connection.disconnect` over the persisted status.  `osErrorRaised` says
whether the cleanup's underlying `OSError` fires during this run.  The
result is the final persisted status and the exception escaping the call,
if any.  The `try` around `self._cleanup()` only catches `OSError`;
`_cleanup` raises `NetworkingException` (not an `OSError` subclass), which
therefore escapes `disconnect` before the final status assignment. -/
def disconnect (status : ConnectionStatus) (osErrorRaised : Bool) :
    ConnectionStatus × Option Err :=
  if status ≠ .CONNECTED ∧ status ≠ .IDLE then (status, none)
  else
    match connectionCleanup false osErrorRaised with
    | none => (.DISCONNECTED, none)
    | some e => (.DISCONNECTING, some e)

/-- One iteration's outcome of the exchange loop of
`Connection._communicate`, as seen at the socket boundary. -/
inductive CommEvent (α : Type)
  | recvClosed                                        -- `recv` returned zero bytes
  | recvMalformed                                     -- `msgpack.unpackb` raised `UnpackException`
  | ioError                                           -- `OSError`/`UnpackException` around send/recv
  | recvPayload (payload : List (String × α)) (isDict : Bool)  -- successfully unpacked data

/-- Whether an iteration outcome makes the loop `break`. -/
def CommEvent.terminal {α : Type} : CommEvent α → Bool
  | .recvPayload _ _ => false
  | _ => true

/-- `Connection._communicate`: the exchange loop over a finite trace of
iteration outcomes.  A successfully unpacked, non-empty dict payload is
merged into the "received" partition via best-effort `update` (whose
`DataManagerException` would escape the loop); zero-byte reads, unpack
failures and socket errors `break`.  After the loop, the `IDLE` status is
set.  `.ok none` means the trace ran out with the loop still going. -/
def communicate {α : Type} : List (CommEvent α) → DataSegment α →
    Except Err (Option (ConnectionStatus × DataSegment α))
  | [], _ => .ok none
  | e :: rest, received =>
      match e with
      | .recvClosed => .ok (some (.IDLE, received))
      | .recvMalformed => .ok (some (.IDLE, received))
      | .ioError => .ok (some (.IDLE, received))
      | .recvPayload payload isDict =>
          if !payload.isEmpty && isDict then do
            let received2 ← received.update payload
            communicate rest received2
          else
            communicate rest received

/-! ## `surface/control/manual.py` -/

def DEAD_ZONE : ℤ := 1025
def HARDWARE_AXIS_MAX : ℚ := 32767
def HARDWARE_AXIS_MIN : ℚ := -32768
def HARDWARE_TRIGGER_MAX : ℚ := 255
def HARDWARE_TRIGGER_MIN : ℚ := 0
def INTENDED_AXIS_MAX : ℚ := CONTROL_NORM_MAX
def INTENDED_AXIS_MIN : ℚ := CONTROL_NORM_MIN
def INTENDED_TRIGGER_MAX : ℚ := CONTROL_NORM_MAX
def INTENDED_TRIGGER_MIN : ℚ := CONTROL_NORM_IDLE

/-- `DISPATCH_MAP`: hardware event code to controller field.  Note the
source routes `BTN_START` to `button_select` and `BTN_SELECT` to
`button_start`. -/
def DISPATCH_MAP : List (String × String) :=
  [ ("ABS_X", "left_axis_x")
  , ("ABS_Y", "left_axis_y")
  , ("ABS_RX", "right_axis_x")
  , ("ABS_RY", "right_axis_y")
  , ("ABS_Z", "left_trigger")
  , ("ABS_RZ", "right_trigger")
  , ("ABS_HAT0X", "hat_x")
  , ("ABS_HAT0Y", "hat_y")
  , ("BTN_SOUTH", "button_a")
  , ("BTN_EAST", "button_b")
  , ("BTN_WEST", "button_x")
  , ("BTN_NORTH", "button_y")
  , ("BTN_TL", "button_lb")
  , ("BTN_TR", "button_rb")
  , ("BTN_THUMBL", "button_left_stick")
  , ("BTN_THUMBR", "button_right_stick")
  , ("BTN_START", "button_select")
  , ("BTN_SELECT", "button_start") ]

/-- `_normalise_axis`: dead-zone filter, then min-max normalisation from the
hardware axis range into the normalised range. -/
def normaliseAxis (value : ℤ) : Except Err ℚ :=
  let value : ℤ := if -DEAD_ZONE < value ∧ value < DEAD_ZONE then 0 else value
  normalise (value : ℚ) HARDWARE_AXIS_MIN HARDWARE_AXIS_MAX INTENDED_AXIS_MIN INTENDED_AXIS_MAX

/-- `_normalise_trigger`. -/
def normaliseTrigger (value : ℤ) : Except Err ℚ :=
  normalise (value : ℚ) HARDWARE_TRIGGER_MIN HARDWARE_TRIGGER_MAX
    INTENDED_TRIGGER_MIN INTENDED_TRIGGER_MAX

/-- The `ManualController` shadow state: the underlying control model plus
one field per physical channel.  Axes and triggers store their normalised
value; hats and buttons store the raw integer event state (Python booleans
are just its truthiness). -/
structure ManualControllerState where
  model : ControlModelState
  leftAxisX : ℚ
  leftAxisY : ℚ
  rightAxisX : ℚ
  rightAxisY : ℚ
  leftTrigger : ℚ
  rightTrigger : ℚ
  hatX : ℤ
  hatY : ℤ
  buttonA : ℤ
  buttonB : ℤ
  buttonX : ℤ
  buttonY : ℤ
  buttonLb : ℤ
  buttonRb : ℤ
  buttonLeftStick : ℤ
  buttonRightStick : ℤ
  buttonSelect : ℤ
  buttonStart : ℤ
  deriving Repr, DecidableEq

/-- `ManualController.__init__`. -/
def ManualControllerState.mkCtl : ManualControllerState :=
  ⟨ControlModelState.mkModel "manual", CONTROL_NORM_IDLE, CONTROL_NORM_IDLE, CONTROL_NORM_IDLE,
    CONTROL_NORM_IDLE, CONTROL_NORM_IDLE, CONTROL_NORM_IDLE, 0, 0,
    0, 0, 0, 0, 0, 0, 0, 0, 0, 0⟩

/-- `_update_yaw`: right trigger wins, left trigger negated, else idle. -/
def ManualControllerState.updateYaw (st : ManualControllerState) :
    Except Err ManualControllerState := do
  let v := if st.rightTrigger ≠ 0 then st.rightTrigger
           else if st.leftTrigger ≠ 0 then -st.leftTrigger
           else CONTROL_NORM_IDLE
  let mo ← st.model.yaw.setValue v
  return { st with model := { st.model with yaw := mo } }

/-- `_update_pitch`. -/
def ManualControllerState.updatePitch (st : ManualControllerState) :
    Except Err ManualControllerState := do
  let mo ← st.model.pitch.setValue st.rightAxisY
  return { st with model := { st.model with pitch := mo } }

/-- `_update_roll`: B then X then idle. -/
def ManualControllerState.updateRoll (st : ManualControllerState) :
    Except Err ManualControllerState := do
  let v := if st.buttonB ≠ 0 then CONTROL_NORM_MAX
           else if st.buttonX ≠ 0 then CONTROL_NORM_MIN
           else CONTROL_NORM_IDLE
  let mo ← st.model.roll.setValue v
  return { st with model := { st.model with roll := mo } }

/-- `_update_sway`. -/
def ManualControllerState.updateSway (st : ManualControllerState) :
    Except Err ManualControllerState := do
  let mo ← st.model.sway.setValue st.rightAxisX
  return { st with model := { st.model with sway := mo } }

/-- `_update_surge`. -/
def ManualControllerState.updateSurge (st : ManualControllerState) :
    Except Err ManualControllerState := do
  let mo ← st.model.surge.setValue st.leftAxisY
  return { st with model := { st.model with surge := mo } }

/-- `_update_heave`: RB then LB then idle. -/
def ManualControllerState.updateHeave (st : ManualControllerState) :
    Except Err ManualControllerState := do
  let v := if st.buttonRb ≠ 0 then CONTROL_NORM_MAX
           else if st.buttonLb ≠ 0 then CONTROL_NORM_MIN
           else CONTROL_NORM_IDLE
  let mo ← st.model.heave.setValue v
  return { st with model := { st.model with heave := mo } }

/-- `_update_cord`: sign of the horizontal hat. -/
def ManualControllerState.updateCord (st : ManualControllerState) :
    Except Err ManualControllerState := do
  let v := if st.hatX > 0 then CONTROL_NORM_MAX
           else if st.hatX < 0 then CONTROL_NORM_MIN
           else CONTROL_NORM_IDLE
  let mo ← st.model.cord.setValue v
  return { st with model := { st.model with cord := mo } }

/-- `_update_gripper`: Y then A then idle. -/
def ManualControllerState.updateGripper (st : ManualControllerState) :
    Except Err ManualControllerState := do
  let v := if st.buttonY ≠ 0 then CONTROL_NORM_MAX
           else if st.buttonA ≠ 0 then CONTROL_NORM_MIN
           else CONTROL_NORM_IDLE
  let mo ← st.model.gripper.setValue v
  return { st with model := { st.model with gripper := mo } }

/-- `_update_micro_thruster`: negated sign of the vertical hat. -/
def ManualControllerState.updateMicro (st : ManualControllerState) :
    Except Err ManualControllerState := do
  let v := if st.hatY < 0 then CONTROL_NORM_MAX
           else if st.hatY > 0 then CONTROL_NORM_MIN
           else CONTROL_NORM_IDLE
  let mo ← st.model.micro.setValue v
  return { st with model := { st.model with micro := mo } }

/-- The all-idle dict literal assigned to `self.motions` in `_update_mode`. -/
def idleMotions : List (String × ℚ) :=
  [ ("yaw", CONTROL_NORM_IDLE), ("pitch", CONTROL_NORM_IDLE), ("roll", CONTROL_NORM_IDLE)
  , ("sway", CONTROL_NORM_IDLE), ("surge", CONTROL_NORM_IDLE), ("heave", CONTROL_NORM_IDLE)
  , ("cord", CONTROL_NORM_IDLE), ("gripper", CONTROL_NORM_IDLE), ("micro", CONTROL_NORM_IDLE) ]

/-- `_update_mode`: when the `button_start` field is truthy and the stored
mode is not `MANUAL`, set `MANUAL` and zero all motions; otherwise when the
`button_select` field is truthy, set `ASSISTED`. -/
def ManualControllerState.updateMode (st : ManualControllerState) (control : DataSegment ℚ) :
    Except Err (ManualControllerState × DataSegment ℚ) := do
  if st.buttonStart ≠ 0 then
    let mode ← readMode control
    if mode ≠ DrivingMode.MANUAL then
      let control2 ← writeMode control .MANUAL
      let model2 ← st.model.motionsSet idleMotions
      return ({ st with model := model2 }, control2)
    else
      return (st, control)
  else if st.buttonSelect ≠ 0 then
    let control2 ← writeMode control .ASSISTED
    return (st, control2)
  else
    return (st, control)

/-- Assignment of one controller field (the `__setattr__` in
`_dispatch_event`): each property setter records the value and recomputes
the motions that channel affects. -/
def dispatchField (st : ManualControllerState) (control : DataSegment ℚ)
    (field : String) (state : ℤ) : Except Err (ManualControllerState × DataSegment ℚ) :=
  match field with
  | "left_axis_x" => do
      let v ← normaliseAxis state
      return ({ st with leftAxisX := v }, control)
  | "left_axis_y" => do
      let v ← normaliseAxis state
      let st2 ← ManualControllerState.updateSurge { st with leftAxisY := v }
      return (st2, control)
  | "right_axis_x" => do
      let v ← normaliseAxis state
      let st2 ← ManualControllerState.updateSway { st with rightAxisX := v }
      return (st2, control)
  | "right_axis_y" => do
      let v ← normaliseAxis state
      let st2 ← ManualControllerState.updatePitch { st with rightAxisY := v }
      return (st2, control)
  | "left_trigger" => do
      let v ← normaliseTrigger state
      let st2 ← ManualControllerState.updateYaw { st with leftTrigger := v }
      return (st2, control)
  | "right_trigger" => do
      let v ← normaliseTrigger state
      let st2 ← ManualControllerState.updateYaw { st with rightTrigger := v }
      return (st2, control)
  | "hat_x" => do
      let st2 ← ManualControllerState.updateCord { st with hatX := state }
      return (st2, control)
  | "hat_y" => do
      let st2 ← ManualControllerState.updateMicro { st with hatY := state }
      return (st2, control)
  | "button_a" => do
      let st2 ← ManualControllerState.updateGripper { st with buttonA := state }
      return (st2, control)
  | "button_b" => do
      let st2 ← ManualControllerState.updateRoll { st with buttonB := state }
      return (st2, control)
  | "button_x" => do
      let st2 ← ManualControllerState.updateRoll { st with buttonX := state }
      return (st2, control)
  | "button_y" => do
      let st2 ← ManualControllerState.updateGripper { st with buttonY := state }
      return (st2, control)
  | "button_lb" => do
      let st2 ← ManualControllerState.updateHeave { st with buttonLb := state }
      return (st2, control)
  | "button_rb" => do
      let st2 ← ManualControllerState.updateHeave { st with buttonRb := state }
      return (st2, control)
  | "button_left_stick" => return ({ st with buttonLeftStick := state }, control)
  | "button_right_stick" => return ({ st with buttonRightStick := state }, control)
  | "button_select" => ManualControllerState.updateMode { st with buttonSelect := state } control
  | "button_start" => ManualControllerState.updateMode { st with buttonStart := state } control
  | _ => return (st, control)

/-- `ManualController._dispatch_event`: skip `SYN_REPORT`, look the code up
in `DISPATCH_MAP` (unknown codes are logged and ignored), assign the field
and run `update()`, which pushes the motion set into "control". -/
def dispatchEvent (st : ManualControllerState) (control : DataSegment ℚ)
    (code : String) (state : ℤ) : Except Err (ManualControllerState × DataSegment ℚ) :=
  if code = "SYN_REPORT" then .ok (st, control)
  else
    match cacheLookup DISPATCH_MAP code with
    | some field => do
        let r ← dispatchField st control field state
        let control2 ← r.1.model.push r.2
        return (r.1, control2)
    | none => .ok (st, control)

/-! ## Concrete store states used in the theorems -/

/-- The all-defaults reachable control store (every value idle, mode MANUAL). -/
def zeroStore : String → ℚ := fun _ => 0

/-- Control store of the spec's ASSISTED merge scenario: manual yaw 0,
manual pitch 0.5, autonomous yaw 0.3, autonomous pitch 0.1, mode ASSISTED. -/
def c2Store : String → ℚ := fun k =>
  if k = "manual-pitch" then 1/2
  else if k = "autonomous-yaw" then 3/10
  else if k = "autonomous-pitch" then 1/10
  else if k = "driving-mode" then 2
  else 0

/-- Control store with driving mode AUTONOMOUS and all values idle. -/
def autoStore : String → ℚ := fun k => if k = "driving-mode" then 1 else 0

/-- A manager model whose cord motion currently holds 1/2 (an in-range,
non-idle value). -/
def mgrWithCord : ControlModelState :=
  { ControlModelState.mkModel "manager" with cord := ⟨"cord", 1/2⟩ }

/-! ## Shared helper lemmas -/

/-- The `Motion.value` setter accepts every value: its guard
`CONTROL_NORM_MIN > value > CONTROL_NORM_MAX` is the Python conjunction
`CONTROL_NORM_MIN > value and value > CONTROL_NORM_MAX`, which is
unsatisfiable. -/
theorem Motion.setValue_ok (m : Motion) (v : ℚ) :
    m.setValue v = .ok { m with value := v } := by
  unfold Motion.setValue
  rw [if_neg]
  rintro ⟨h1, h2⟩
  rw [CONTROL_NORM_MIN] at h1
  rw [CONTROL_NORM_MAX] at h2
  linarith

/-- Appending the same string on the left is cancellable. -/
theorem stringAppend_cancel {a b c : String} (h : a ++ b = a ++ c) : b = c := by
  cases b with
  | mk db => cases c with
    | mk dc =>
      have h2 : (a ++ ⟨db⟩).data = (a ++ ⟨dc⟩).data := by rw [h]
      simp [String.data_append] at h2
      simp [h2]

/-- Redis keys of one segment are injective in the plain key. -/
theorem DataSegment.redisKey_inj {α : Type} (s : DataSegment α) {k1 k2 : String}
    (h : s.redisKey k1 = s.redisKey k2) : k1 = k2 :=
  stringAppend_cancel h

theorem cacheLookup_set_self {α : Type} (c : List (String × α)) (k : String) (v : α) :
    cacheLookup (cacheSet c k v) k = some v := by
  induction c with
  | nil => simp [cacheSet, cacheLookup]
  | cons p rest ih =>
    obtain ⟨k2, v2⟩ := p
    by_cases h : k2 = k
    · simp [cacheSet, cacheLookup, h]
    · simp [cacheSet, cacheLookup, h, ih]

theorem cacheLookup_set_other {α : Type} (c : List (String × α)) (k k2 : String) (v : α)
    (h : k ≠ k2) : cacheLookup (cacheSet c k v) k2 = cacheLookup c k2 := by
  induction c with
  | nil => simp [cacheSet, cacheLookup, h]
  | cons p rest ih =>
    obtain ⟨k3, v3⟩ := p
    by_cases h3 : k3 = k
    · subst h3
      simp [cacheSet, cacheLookup, h]
    · by_cases h2 : k3 = k2
      · simp [cacheSet, cacheLookup, h3, h2, Ne.symm h]
      · simp [cacheSet, cacheLookup, h3, h2, ih]

theorem cacheExists_set {α : Type} (c : List (String × α)) (k k2 : String) (v : α) :
    cacheExists (cacheSet c k v) k2 = if k = k2 then true else cacheExists c k2 := by
  by_cases h : k = k2
  · subst h
    simp [cacheExists, cacheLookup_set_self]
  · simp [cacheExists, h, cacheLookup_set_other c k k2 v h]

/-- Under the reachability invariant, `__getitem__` of a declared key
succeeds. -/
theorem DataSegment.getItem_ok {α : Type} (s : DataSegment α) (hInv : s.Inv) {k : String}
    (hk : k ∈ s.keys) :
    ∃ v, s.getItem k = .ok v ∧ cacheLookup s.cache (s.redisKey k) = some v := by
  have hex : cacheExists s.cache (s.redisKey k) = true := (hInv k).2 hk
  rw [cacheExists, Option.isSome_iff_exists] at hex
  obtain ⟨v, hv⟩ := hex
  exact ⟨v, by simp [DataSegment.getItem, hk, hv], hv⟩

theorem DataSegment.setItem_ok {α : Type} (s : DataSegment α) {k : String}
    (hk : k ∈ s.keys) (v : α) :
    s.setItem k v = .ok { s with cache := cacheSet s.cache (s.redisKey k) v } := by
  simp [DataSegment.setItem, hk]

/-- Writing a declared key preserves the reachability invariant. -/
theorem DataSegment.inv_set {α : Type} (s : DataSegment α) (hInv : s.Inv) {k : String}
    (hk : k ∈ s.keys) (v : α) :
    DataSegment.Inv { s with cache := cacheSet s.cache (s.redisKey k) v } := by
  intro k2
  show cacheExists (cacheSet s.cache (s.redisKey k) v)
      (s.name ++ ":" ++ k2) = true ↔ k2 ∈ s.keys
  rw [show s.name ++ ":" ++ k2 = s.redisKey k2 from rfl, cacheExists_set]
  by_cases h : s.redisKey k = s.redisKey k2
  · have hkk : k = k2 := s.redisKey_inj h
    subst hkk
    simp [h, hk]
  · rw [if_neg h]
    exact hInv k2

/-- Under the reachability invariant, `update` never raises; it preserves
the declared keys, the invariant, and the binding of every key it was not
given. -/
theorem DataSegment.update_ok {α : Type} (data : List (String × α)) (s : DataSegment α)
    (hInv : s.Inv) :
    ∃ s2, s.update data = .ok s2 ∧ s2.name = s.name ∧ s2.keys = s.keys ∧ s2.Inv ∧
      ∀ k, k ∉ data.map Prod.fst →
        cacheLookup s2.cache (s2.redisKey k) = cacheLookup s.cache (s.redisKey k) := by
  induction data generalizing s with
  | nil => exact ⟨s, rfl, rfl, rfl, hInv, fun _ _ => rfl⟩
  | cons p rest ih =>
    obtain ⟨k, v⟩ := p
    by_cases hex : cacheExists s.cache (s.redisKey k) = true
    · have hk : k ∈ s.keys := (hInv k).1 hex
      have hInv1 := s.inv_set hInv hk v
      obtain ⟨s2, hup, hname, hkeys, hInv2, hpres⟩ :=
        ih { s with cache := cacheSet s.cache (s.redisKey k) v } hInv1
      refine ⟨s2, ?_, hname, hkeys, hInv2, ?_⟩
      · simp [DataSegment.update, hex, s.setItem_ok hk, hup]
      · intro k2 hk2
        simp only [List.map_cons, List.mem_cons, not_or] at hk2
        rw [hpres k2 hk2.2]
        show cacheLookup (cacheSet s.cache (s.redisKey k) v) (s.name ++ ":" ++ k2) =
          cacheLookup s.cache (s.redisKey k2)
        rw [show s.name ++ ":" ++ k2 = s.redisKey k2 from rfl]
        exact cacheLookup_set_other _ _ _ _ (fun heq => hk2.1 (s.redisKey_inj heq).symm)
    · obtain ⟨s2, hup, hname, hkeys, hInv2, hpres⟩ := ih s hInv
      refine ⟨s2, ?_, hname, hkeys, hInv2, ?_⟩
      · simp [DataSegment.update, hex, hup]
      · intro k2 hk2
        simp only [List.map_cons, List.mem_cons, not_or] at hk2
        exact hpres k2 hk2.2

/-- Under the reachability invariant, `fetch` never raises and returns
precisely the declared keys among those requested. -/
theorem DataSegment.fetch_ok {α : Type} (s : DataSegment α) (hInv : s.Inv) (ks : List String) :
    ∃ l, s.fetch ks = .ok l ∧
      l.map Prod.fst = ks.filter (fun k => decide (k ∈ s.keys)) := by
  induction ks with
  | nil => exact ⟨[], rfl, rfl⟩
  | cons k rest ih =>
    obtain ⟨l, hl, hmap⟩ := ih
    by_cases hex : cacheExists s.cache (s.redisKey k) = true
    · have hk : k ∈ s.keys := (hInv k).1 hex
      obtain ⟨v, hv, _⟩ := s.getItem_ok hInv hk
      refine ⟨(k, v) :: l, ?_, ?_⟩
      · simp [DataSegment.fetch, hex, hv, hl]
      · simp [hmap, List.filter, hk]
    · have hk : k ∉ s.keys := fun h => hex ((hInv k).2 h)
      refine ⟨l, ?_, ?_⟩
      · simp [DataSegment.fetch, hex, hl]
      · simp [hmap, List.filter, hk]

theorem cacheExists_foldl_set {α : Type} (name : String) (data : List (String × α))
    (c : List (String × α)) (x : String) :
    cacheExists (data.foldl (fun c kv => cacheSet c (name ++ ":" ++ kv.1) kv.2) c) x =
      (cacheExists c x || decide (x ∈ data.map (fun kv => name ++ ":" ++ kv.1))) := by
  induction data generalizing c with
  | nil => simp
  | cons p rest ih =>
    obtain ⟨k, v⟩ := p
    rw [List.foldl_cons, ih, cacheExists_set]
    by_cases h : name ++ ":" ++ k = x
    · simp [h]
    · have hbeq : (x == name ++ ":" ++ k) = false := beq_eq_false_iff_ne.mpr (Ne.symm h)
      simp [h, hbeq]

/-- `__init__` on a fresh cache establishes the reachability invariant. -/
theorem DataSegment.init_inv {α : Type} (name : String) (data : List (String × α)) :
    (DataSegment.init name [] data).Inv := by
  intro k
  show cacheExists (data.foldl (fun c kv => cacheSet c (name ++ ":" ++ kv.1) kv.2) [])
      (name ++ ":" ++ k) = true ↔ k ∈ (data.map Prod.fst)
  rw [cacheExists_foldl_set]
  have hbase : cacheExists ([] : List (String × α)) (name ++ ":" ++ k) = false := rfl
  rw [hbase]
  simp only [Bool.false_or, decide_eq_true_eq, List.mem_map]
  constructor
  · rintro ⟨kv, hkv, heq⟩
    exact ⟨kv, hkv, stringAppend_cancel heq⟩
  · rintro ⟨kv, hkv, heq⟩
    exact ⟨kv, hkv, by rw [heq]⟩

/-! ## Claims -/

/-- C1: the claim says any assignment of a value outside
`[CONTROL_NORM_MIN, CONTROL_NORM_MAX] = [-1, 1]` to a `Motion` raises
`ControlSystemException`.  The code's guard is the always-false chained
comparison, so the out-of-range value 5 is accepted and stored: the setter
contradicts its own docstring and error message. -/
theorem C1_motion_setter_accepts_out_of_range :
    Motion.setValue (Motion.init "yaw") 5 = .ok ⟨"yaw", 5⟩ ∧ (5 : ℚ) > CONTROL_NORM_MAX := by
  constructor
  · rw [Motion.setValue_ok]
    rfl
  · norm_num [CONTROL_NORM_MAX]

/-- C3: the claim says `disconnect()` from `CONNECTED` or `IDLE` always ends
with status `DISCONNECTED`, even when cleanup raises.  On the failing runs
(`osErrorRaised = true`) `_cleanup` raises `NetworkingException`, which the
`except OSError` clause does not catch, so the call is left at
`DISCONNECTING`; only the clean runs end `DISCONNECTED`. -/
theorem C3_disconnect_leaves_disconnecting_on_cleanup_error :
    disconnect .CONNECTED true =
      (.DISCONNECTING, some (.networkingError "Failed to cleanup the connection")) ∧
    disconnect .IDLE true =
      (.DISCONNECTING, some (.networkingError "Failed to cleanup the connection")) ∧
    disconnect .CONNECTED false = (.DISCONNECTED, none) ∧
    disconnect .IDLE false = (.DISCONNECTED, none) ∧
    (disconnect .CONNECTED true).1 ≠ .DISCONNECTED :=
  ⟨rfl, rfl, rfl, rfl, by decide⟩

/-- C7: `normalise(0,-1,1,1100,1900) = 1500`, `normalise(1,-1,1,1100,1900) =
1900`; every value outside the source range raises `ValueError`, and so does
every degenerate source or target range. -/
theorem C7_normalise_contract :
    normalise 0 (-1) 1 1100 1900 = .ok 1500 ∧
    normalise 1 (-1) 1 1100 1900 = .ok 1900 ∧
    (∀ v cmin cmax imin imax : ℚ, v > cmax ∨ v < cmin →
      raisesValueError (normalise v cmin cmax imin imax)) ∧
    (∀ v a imin imax : ℚ, raisesValueError (normalise v a a imin imax)) ∧
    (∀ v cmin cmax b : ℚ, raisesValueError (normalise v cmin cmax b b)) := by
  refine ⟨?_, ?_, ?_, ?_, ?_⟩
  · norm_num [normalise, pyRound, pyRoundInt, NORMALISATION_PRECISION]
  · norm_num [normalise, pyRound, pyRoundInt, NORMALISATION_PRECISION]
  · intro v cmin cmax imin imax h
    unfold normalise raisesValueError
    split
    · exact ⟨_, rfl⟩
    · rw [if_pos]
      · exact ⟨_, rfl⟩
      · rintro ⟨h1, h2⟩
        rcases h with h | h <;> linarith
  · intro v a imin imax
    unfold normalise raisesValueError
    rw [if_pos (Or.inl rfl)]
    exact ⟨_, rfl⟩
  · intro v cmin cmax b
    unfold normalise raisesValueError
    rw [if_pos (Or.inr rfl)]
    exact ⟨_, rfl⟩

/-- Witness for C7 at the spec's own examples: `normalise(5,-1,1,1100,1900)`
raises (out of source range), and degenerate source and target ranges
raise. -/
theorem C7_normalise_contract_witness :
    raisesValueError (normalise 5 (-1) 1 1100 1900) ∧
    raisesValueError (normalise 0 1 1 1100 1900) ∧
    raisesValueError (normalise 0 (-1) 1 1100 1100) :=
  ⟨C7_normalise_contract.2.2.1 5 (-1) 1 1100 1900 (by norm_num),
   C7_normalise_contract.2.2.2.1 0 1 1100 1900,
   C7_normalise_contract.2.2.2.2 0 (-1) 1 1100⟩

/-- C8: with surge, yaw and sway all idle, every horizontal thruster yields
the idle hardware value 1500 (`THRUSTER_IDLE`); with surge 1 and the others
idle, `T_HFP` and `T_HFS` both equal `-surge` rescaled from `[-1, 1]` into
`[THRUSTER_MIN, THRUSTER_MAX] = [1100, 1900]`, i.e. 1100. -/
theorem C8_horizontal_thruster_tiebreak :
    thrusterHfp 0 0 0 = .ok 1500 ∧ thrusterHfs 0 0 0 = .ok 1500 ∧
    thrusterHap 0 0 0 = .ok 1500 ∧ thrusterHas 0 0 0 = .ok 1500 ∧
    THRUSTER_IDLE = 1500 ∧
    thrusterHfp 1 0 0 = toThrusterValue (-1) ∧
    thrusterHfs 1 0 0 = toThrusterValue (-1) ∧
    toThrusterValue (-1) = .ok 1100 := by
  refine ⟨?_, ?_, ?_, ?_, rfl, ?_, ?_, ?_⟩ <;>
    norm_num [thrusterHfp, thrusterHfs, thrusterHap, thrusterHas, toThrusterValue,
      normalise, pyRound, pyRoundInt, pyInt, Except.map,
      NORMALISATION_PRECISION, CONTROL_NORM_MIN, CONTROL_NORM_MAX, CONTROL_NORM_IDLE,
      THRUSTER_MIN, THRUSTER_MAX]

/-- C6: strict `get`/`set` on an undeclared key raise `DataManagerException`;
under the reachability invariant the best-effort `fetch` and `update` never
raise — undeclared keys are skipped and every declared key not explicitly
set keeps its value; and the concrete scenario: defaults `{a:1, b:2}`, then
`update {a:9, c:5}`, then `getAll` yields `{a:9, b:2}`. -/
theorem C6_segment_key_validation :
    (∀ {α : Type} (s : DataSegment α) (k : String), k ∉ s.keys →
      (∃ m, s.getItem k = .error (.dataManagerError m)) ∧
      (∀ v, ∃ m, s.setItem k v = .error (.dataManagerError m))) ∧
    (∀ {α : Type} (s : DataSegment α), s.Inv → ∀ ks : List String,
      ∃ l, s.fetch ks = .ok l ∧
        l.map Prod.fst = ks.filter (fun k => decide (k ∈ s.keys))) ∧
    (∀ {α : Type} (s : DataSegment α), s.Inv → ∀ data : List (String × α),
      ∃ s2, s.update data = .ok s2 ∧ s2.keys = s.keys ∧
        ∀ k, k ∈ s.keys → k ∉ data.map Prod.fst → s2.getItem k = s.getItem k) ∧
    ((DataSegment.init "seg" ([] : List (String × ℤ)) [("a", 1), ("b", 2)]).update
        [("a", 9), ("c", 5)] >>= fun s2 => s2.all) = .ok [("a", 9), ("b", 2)] := by
  refine ⟨?_, ?_, ?_, ?_⟩
  · intro α s k hk
    refine ⟨⟨"Failed to retrieve value using key " ++ k ++ " - key not registered",
        by simp [DataSegment.getItem, hk]⟩,
      fun v => ⟨"Failed to set value using key " ++ k ++ " - key not registered",
        by simp [DataSegment.setItem, hk]⟩⟩
  · intro α s hInv ks
    exact s.fetch_ok hInv ks
  · intro α s hInv data
    obtain ⟨s2, hup, hname, hkeys, hInv2, hpres⟩ := DataSegment.update_ok data s hInv
    refine ⟨s2, hup, hkeys, ?_⟩
    intro k hk hk2
    have hrk : s2.redisKey k = s.redisKey k := by
      rw [DataSegment.redisKey, DataSegment.redisKey, hname]
    have hlook : cacheLookup s2.cache (s.redisKey k) = cacheLookup s.cache (s.redisKey k) :=
      hrk ▸ hpres k hk2
    simp only [DataSegment.getItem, hkeys, hrk, hlook]
  · decide

/-- Witness for C6 on the concrete `{a:1, b:2}` segment and the undeclared
key `"c"`: strict get raises, best-effort fetch and update go through. -/
theorem C6_segment_key_validation_witness :
    (∃ m, (DataSegment.init "seg" ([] : List (String × ℤ)) [("a", 1), ("b", 2)]).getItem "c" =
      .error (.dataManagerError m)) ∧
    (∃ l, (DataSegment.init "seg" ([] : List (String × ℤ)) [("a", 1), ("b", 2)]).fetch ["c"] =
        .ok l ∧
      l.map Prod.fst = ["c"].filter (fun k => decide
        (k ∈ (DataSegment.init "seg" ([] : List (String × ℤ)) [("a", 1), ("b", 2)]).keys))) ∧
    (∃ s2, (DataSegment.init "seg" ([] : List (String × ℤ)) [("a", 1), ("b", 2)]).update
        [("c", 5)] = .ok s2 ∧
      s2.keys = (DataSegment.init "seg" ([] : List (String × ℤ)) [("a", 1), ("b", 2)]).keys ∧
      ∀ k, k ∈ (DataSegment.init "seg" ([] : List (String × ℤ)) [("a", 1), ("b", 2)]).keys →
        k ∉ ([("c", (5 : ℤ))].map Prod.fst) →
        s2.getItem k = (DataSegment.init "seg" ([] : List (String × ℤ)) [("a", 1), ("b", 2)]).getItem k) :=
  ⟨(C6_segment_key_validation.1 _ "c" (by decide)).1,
   C6_segment_key_validation.2.1 _ (DataSegment.init_inv "seg" [("a", 1), ("b", 2)]) ["c"],
   C6_segment_key_validation.2.2.1 _ (DataSegment.init_inv "seg" [("a", 1), ("b", 2)]) [("c", 5)]⟩

/-- The `ASSISTED` comprehension succeeds and keeps the manual key list
whenever every manual key can be indexed in the autonomous dictionary. -/
theorem assistedMerge_keys (manual autonomous : List (String × ℚ))
    (h : ∀ kv ∈ manual, ∃ v, cacheLookup autonomous kv.1 = some v) :
    ∃ out, assistedMerge manual autonomous = .ok out ∧
      out.map Prod.fst = manual.map Prod.fst := by
  induction manual with
  | nil => exact ⟨[], rfl, rfl⟩
  | cons p rest ih =>
    obtain ⟨k, v⟩ := p
    obtain ⟨out, hout, hmap⟩ := ih (fun kv hkv => h kv (List.mem_cons_of_mem _ hkv))
    obtain ⟨va, hva⟩ := h (k, v) (List.mem_cons_self _ _)
    by_cases hv : v ≠ CONTROL_NORM_IDLE
    · refine ⟨(k, v) :: out, ?_, by simp [hmap]⟩
      simp [assistedMerge, hv, hout]
    · refine ⟨(k, va) :: out, ?_, by simp [hmap]⟩
      simp [assistedMerge, hv, dictLookup, hva, hout]

/-- The bulk `motions` setter fails with `KeyError "cord"` whenever the
assigned dictionary holds exactly the six DOF keys. -/
theorem motionsSet_missing_cord (m : ControlModelState) (values : List (String × ℚ))
    (h : values.map Prod.fst = ["yaw", "pitch", "roll", "sway", "surge", "heave"]) :
    m.motionsSet values = .error (.keyError "cord") := by
  rcases values with _ | ⟨⟨k1, v1⟩, _ | ⟨⟨k2, v2⟩, _ | ⟨⟨k3, v3⟩, _ | ⟨⟨k4, v4⟩,
    _ | ⟨⟨k5, v5⟩, _ | ⟨⟨k6, v6⟩, _ | ⟨p, tail⟩⟩⟩⟩⟩⟩⟩ <;> simp at h
  obtain ⟨rfl, rfl, rfl, rfl, rfl, rfl⟩ := h
  simp [ControlModelState.motionsSet, dictLookup, cacheLookup, Motion.setValue_ok]

/-- C4: for every driving mode and every reachable control store (all
declared keys present), `ControlManager.update` fails with `KeyError "cord"`
at the bulk `motions` assignment, before convert and push: the pulled key
subsets hold only the six DOF axes, never cord, gripper or micro. -/
theorem C4_manager_update_raises_keyerror_cord (f : String → ℚ)
    (hmode : f "driving-mode" = 0 ∨ f "driving-mode" = 1 ∨ f "driving-mode" = 2)
    (transmission : DataSegment ℤ) (mgr : ControlModelState) :
    managerUpdate (controlSeg f) transmission mgr managerManualKeys =
      .error (.keyError "cord") := by
  have hkeys : managerManualKeys = ["manual-yaw", "manual-pitch", "manual-roll",
      "manual-sway", "manual-surge", "manual-heave"] := by decide
  have hfetch : (controlSeg f).fetch ["manual-yaw", "manual-pitch", "manual-roll",
      "manual-sway", "manual-surge", "manual-heave"] =
    .ok [("manual-yaw", f "manual-yaw"), ("manual-pitch", f "manual-pitch"),
         ("manual-roll", f "manual-roll"), ("manual-sway", f "manual-sway"),
         ("manual-surge", f "manual-surge"), ("manual-heave", f "manual-heave")] := by
    simp [controlSeg, controlCache, controlKeys, DATA_CONTROL,
      DataSegment.fetch, DataSegment.getItem, DataSegment.redisKey, cacheExists, cacheLookup]
  have hget : (controlSeg f).getItem RK_CONTROL_DRIVING_MODE = .ok (f "driving-mode") := by
    simp [controlSeg, controlCache, controlKeys, DATA_CONTROL, RK_CONTROL_DRIVING_MODE,
      DataSegment.getItem, DataSegment.redisKey, cacheLookup]
  have hof0 : DrivingMode.ofValue 0 = .ok .MANUAL := by norm_num [DrivingMode.ofValue]
  have hof1 : DrivingMode.ofValue 1 = .ok .AUTONOMOUS := by norm_num [DrivingMode.ofValue]
  have hof2 : DrivingMode.ofValue 2 = .ok .ASSISTED := by norm_num [DrivingMode.ofValue]
  set fl := [("manual-yaw", f "manual-yaw"), ("manual-pitch", f "manual-pitch"),
         ("manual-roll", f "manual-roll"), ("manual-sway", f "manual-sway"),
         ("manual-surge", f "manual-surge"), ("manual-heave", f "manual-heave")] with hfl
  have hflkeys : fl.map Prod.fst = ["manual-yaw", "manual-pitch", "manual-roll",
      "manual-sway", "manual-surge", "manual-heave"] := by
    rw [hfl]
    rfl
  have hstrip : ∀ out : List (String × ℚ), out.map Prod.fst = fl.map Prod.fst →
      ((out.map (fun kv => (lastDashSegment kv.1, kv.2))).map Prod.fst =
        ["yaw", "pitch", "roll", "sway", "surge", "heave"]) := by
    intro out hout
    rw [List.map_map]
    have h1 : (Prod.fst ∘ fun kv : String × ℚ => (lastDashSegment kv.1, kv.2)) =
        (lastDashSegment ∘ Prod.fst) := rfl
    rw [h1, ← List.map_map, hout, hflkeys]
    rfl
  have hmanual : managerMerge .MANUAL fl fl =
      .ok (fl.map (fun kv => (lastDashSegment kv.1, kv.2))) := rfl
  have hauto : managerMerge .AUTONOMOUS fl fl =
      .ok (fl.map (fun kv => (lastDashSegment kv.1, kv.2))) := rfl
  have hassist : managerMerge .ASSISTED fl fl =
      assistedMerge fl fl >>= fun data =>
        .ok (data.map (fun kv => (lastDashSegment kv.1, kv.2))) := rfl
  rw [managerUpdate, hkeys, managerPull, hfetch]
  simp only [exceptBind_ok, exceptPure]
  rw [readMode, hget]
  simp only [exceptBind_ok]
  rcases hmode with h | h | h <;> rw [h]
  · rw [hof0]
    simp only [exceptBind_ok]
    rw [hmanual]
    simp only [exceptBind_ok]
    rw [motionsSet_missing_cord mgr _ (hstrip fl rfl)]
    rfl
  · rw [hof1]
    simp only [exceptBind_ok]
    rw [hauto]
    simp only [exceptBind_ok]
    rw [motionsSet_missing_cord mgr _ (hstrip fl rfl)]
    rfl
  · rw [hof2]
    simp only [exceptBind_ok]
    rw [hassist]
    have hlk : ∀ kv ∈ fl, ∃ v, cacheLookup fl kv.1 = some v := by
      intro kv hkv
      rw [hfl] at hkv
      simp only [List.mem_cons, List.not_mem_nil, or_false] at hkv
      rcases hkv with h1 | h1 | h1 | h1 | h1 | h1 <;> rw [h1] <;>
        exact ⟨_, rfl⟩
    obtain ⟨out, hout, hmap⟩ := assistedMerge_keys fl fl hlk
    rw [hout]
    simp only [exceptBind_ok]
    rw [motionsSet_missing_cord mgr _ (hstrip out hmap)]
    rfl

/-- Witness for C4 at the all-defaults store (mode MANUAL), an empty
transmission segment and a fresh manager model. -/
theorem C4_manager_update_raises_keyerror_cord_witness :
    managerUpdate (controlSeg zeroStore) ⟨"transmission", [], []⟩
      (ControlModelState.mkModel "manager") managerManualKeys =
      .error (.keyError "cord") :=
  C4_manager_update_raises_keyerror_cord zeroStore (Or.inl rfl) ⟨"transmission", [], []⟩
    (ControlModelState.mkModel "manager")


/-- C2: the claim says the ASSISTED merge falls back, per axis, to the
autonomous values, so with manual `{yaw:0, pitch:0.5}` and autonomous
`{yaw:0.3, pitch:0.1}` stored the merged motions hold `{yaw:0.3, pitch:0.5}`.
In the code `_pull` fetches the manual key subset into the autonomous
dictionary as well, so the idle manual yaw falls back to the manual value 0,
not to the stored autonomous 0.3. -/
theorem C2_assisted_merge_falls_back_to_manual :
    (managerPull (controlSeg c2Store) managerManualKeys >>= fun pulled =>
      managerMerge .ASSISTED pulled.1 pulled.2) =
      .ok [("yaw", (0 : ℚ)), ("pitch", 1/2), ("roll", 0), ("sway", 0),
           ("surge", 0), ("heave", 0)] ∧
    readMode (controlSeg c2Store) = .ok .ASSISTED ∧
    c2Store "manual-yaw" = 0 ∧ c2Store "manual-pitch" = 1/2 ∧
    c2Store "autonomous-yaw" = 3/10 ∧ c2Store "autonomous-pitch" = 1/10 ∧
    ((0 : ℚ) ≠ 3/10) := by
  have hkeys : managerManualKeys = ["manual-yaw", "manual-pitch", "manual-roll",
      "manual-sway", "manual-surge", "manual-heave"] := by decide
  have hfetch : (controlSeg c2Store).fetch ["manual-yaw", "manual-pitch", "manual-roll",
      "manual-sway", "manual-surge", "manual-heave"] =
    .ok [("manual-yaw", c2Store "manual-yaw"), ("manual-pitch", c2Store "manual-pitch"),
         ("manual-roll", c2Store "manual-roll"), ("manual-sway", c2Store "manual-sway"),
         ("manual-surge", c2Store "manual-surge"), ("manual-heave", c2Store "manual-heave")] := by
    simp [controlSeg, controlCache, controlKeys, DATA_CONTROL,
      DataSegment.fetch, DataSegment.getItem, DataSegment.redisKey, cacheExists, cacheLookup]
  have hv1 : c2Store "manual-yaw" = 0 := by simp [c2Store]
  have hv2 : c2Store "manual-pitch" = 1/2 := by simp [c2Store]
  have hv3 : c2Store "manual-roll" = 0 := by simp [c2Store]
  have hv4 : c2Store "manual-sway" = 0 := by simp [c2Store]
  have hv5 : c2Store "manual-surge" = 0 := by simp [c2Store]
  have hv6 : c2Store "manual-heave" = 0 := by simp [c2Store]
  rw [hv1, hv2, hv3, hv4, hv5, hv6] at hfetch
  refine ⟨?_, ?_, hv1, hv2, by simp [c2Store], by simp [c2Store], by norm_num⟩
  · rw [managerPull, hkeys, hfetch]
    simp only [exceptBind_ok, exceptPure]
    rw [show managerMerge .ASSISTED
        [("manual-yaw", (0:ℚ)), ("manual-pitch", 1/2), ("manual-roll", 0), ("manual-sway", 0),
         ("manual-surge", 0), ("manual-heave", 0)]
        [("manual-yaw", (0:ℚ)), ("manual-pitch", 1/2), ("manual-roll", 0), ("manual-sway", 0),
         ("manual-surge", 0), ("manual-heave", 0)] =
      (assistedMerge
        [("manual-yaw", (0:ℚ)), ("manual-pitch", 1/2), ("manual-roll", 0), ("manual-sway", 0),
         ("manual-surge", 0), ("manual-heave", 0)]
        [("manual-yaw", (0:ℚ)), ("manual-pitch", 1/2), ("manual-roll", 0), ("manual-sway", 0),
         ("manual-surge", 0), ("manual-heave", 0)] >>= fun data =>
        .ok (data.map (fun kv => (lastDashSegment kv.1, kv.2)))) from rfl]
    have hmerge : assistedMerge
        [("manual-yaw", (0:ℚ)), ("manual-pitch", 1/2), ("manual-roll", 0), ("manual-sway", 0),
         ("manual-surge", 0), ("manual-heave", 0)]
        [("manual-yaw", (0:ℚ)), ("manual-pitch", 1/2), ("manual-roll", 0), ("manual-sway", 0),
         ("manual-surge", 0), ("manual-heave", 0)] =
        .ok [("manual-yaw", (0:ℚ)), ("manual-pitch", 1/2), ("manual-roll", 0), ("manual-sway", 0),
         ("manual-surge", 0), ("manual-heave", 0)] := by
      have h12 : ((1:ℚ)/2 ≠ 0) := by norm_num
      simp [assistedMerge, dictLookup, cacheLookup, CONTROL_NORM_IDLE, h12]
    rw [hmerge]
    simp only [exceptBind_ok]
    rfl
  · rw [readMode]
    have hget : (controlSeg c2Store).getItem RK_CONTROL_DRIVING_MODE =
        .ok (c2Store "driving-mode") := by
      simp [controlSeg, controlCache, controlKeys, DATA_CONTROL, RK_CONTROL_DRIVING_MODE,
        DataSegment.getItem, DataSegment.redisKey, cacheLookup]
    rw [hget]
    have hdm : c2Store "driving-mode" = 2 := by simp [c2Store]
    rw [hdm]
    norm_num [DrivingMode.ofValue]

/-- C5: the claim says `push()` writes all nine motion values under
`"<name>-<motion>"` into the "control" partition.  The push does submit all
nine, but `DATA_CONTROL` declares only the six DOF keys per model, so the
best-effort `update` skips `manager-cord`, `manager-gripper` and
`manager-micro`: after pushing a model whose cord is 1/2, the partition has
no `manager-cord` binding at all (and strict reads of it raise), while the
six axis keys are written. -/
theorem C5_push_skips_cord_gripper_micro :
    mgrWithCord.cord.value = 1/2 ∧
    ("manager-cord" ∉ (controlSeg zeroStore).keys) ∧
    (∃ s2, mgrWithCord.push (controlSeg zeroStore) = .ok s2 ∧
      cacheExists s2.cache ("control" ++ ":" ++ "manager-cord") = false ∧
      cacheExists s2.cache ("control" ++ ":" ++ "manager-gripper") = false ∧
      cacheExists s2.cache ("control" ++ ":" ++ "manager-micro") = false ∧
      s2.getItem "manager-yaw" = .ok 0 ∧
      (∃ m, s2.getItem "manager-cord" = .error (.dataManagerError m))) := by
  refine ⟨rfl, by decide, ⟨_, rfl, ?_, ?_, ?_, ?_, ⟨_, rfl⟩⟩⟩
  · rfl
  · rfl
  · rfl
  · rfl

/-- C9: whenever the exchange loop exits — peer close (zero-byte read),
unpack failure, or socket error — the persisted status is `IDLE` and never
anything else; a terminal iteration ends the loop immediately, so a
malformed payload is never retried (events after it are never examined);
and in reachable received-partition states the best-effort merge never
throws, so those breaks are the only loop exits. -/
theorem C9_exchange_loop_exits_idle :
    (∀ {α : Type} (events : List (CommEvent α)) (received : DataSegment α)
        (r : ConnectionStatus × DataSegment α),
      communicate events received = .ok (some r) → r.1 = .IDLE) ∧
    (∀ {α : Type} (pre : List (CommEvent α)) (e : CommEvent α) (rest : List (CommEvent α))
        (received : DataSegment α), e.terminal = true →
      communicate (pre ++ e :: rest) received = communicate (pre ++ [e]) received) ∧
    (∀ {α : Type} (events : List (CommEvent α)) (received : DataSegment α), received.Inv →
      ∃ res, communicate events received = .ok res) := by
  refine ⟨?_, ?_, ?_⟩
  · intro α events
    induction events with
    | nil =>
      intro received r h
      cases h
    | cons p events ih =>
      intro received r h
      cases p with
      | recvClosed =>
        cases h
        rfl
      | recvMalformed =>
        cases h
        rfl
      | ioError =>
        cases h
        rfl
      | recvPayload payload isDict =>
        rw [communicate] at h
        by_cases hg : (!payload.isEmpty && isDict) = true
        · rw [if_pos hg] at h
          cases hupd : received.update payload with
          | error e2 =>
            rw [hupd] at h
            cases h
          | ok s2 =>
            rw [hupd] at h
            exact ih s2 r h
        · rw [if_neg hg] at h
          exact ih received r h
  · intro α pre e rest
    induction pre with
    | nil =>
      intro received hterm
      cases e with
      | recvClosed => rfl
      | recvMalformed => rfl
      | ioError => rfl
      | recvPayload payload isDict => cases hterm
    | cons p pre ih =>
      intro received hterm
      cases p with
      | recvClosed => rfl
      | recvMalformed => rfl
      | ioError => rfl
      | recvPayload payload isDict =>
        rw [List.cons_append, List.cons_append, communicate, communicate]
        by_cases hg : (!payload.isEmpty && isDict) = true
        · rw [if_pos hg, if_pos hg]
          cases hupd : received.update payload with
          | error e2 => rfl
          | ok s2 => simpa using ih s2 hterm
        · rw [if_neg hg, if_neg hg]
          exact ih received hterm
  · intro α events
    induction events with
    | nil =>
      intro received _
      exact ⟨none, rfl⟩
    | cons p events ih =>
      intro received hInv
      cases p with
      | recvClosed => exact ⟨some (.IDLE, received), rfl⟩
      | recvMalformed => exact ⟨some (.IDLE, received), rfl⟩
      | ioError => exact ⟨some (.IDLE, received), rfl⟩
      | recvPayload payload isDict =>
        rw [communicate]
        by_cases hg : (!payload.isEmpty && isDict) = true
        · rw [if_pos hg]
          obtain ⟨s2, hup, _, _, hInv2, _⟩ := DataSegment.update_ok payload received hInv
          rw [hup]
          exact ih s2 hInv2
        · rw [if_neg hg]
          exact ih received hInv


/-- Witness for C9: a peer close ends the loop with `IDLE`; a trace is cut
at its first terminal event; and the loop on a reachable received partition
returns without raising. -/
theorem C9_exchange_loop_exits_idle_witness :
    ((ConnectionStatus.IDLE, DataSegment.init "received" ([] : List (String × ℤ)) [("S_A", 0)]) :
        ConnectionStatus × DataSegment ℤ).1 = .IDLE ∧
    communicate ([CommEvent.recvPayload [("S_A", (1:ℤ))] true] ++
        CommEvent.recvClosed :: [CommEvent.ioError])
        (DataSegment.init "received" [] [("S_A", 0)]) =
      communicate ([CommEvent.recvPayload [("S_A", 1)] true] ++ [CommEvent.recvClosed])
        (DataSegment.init "received" [] [("S_A", 0)]) ∧
    (∃ res, communicate [CommEvent.recvClosed]
        (DataSegment.init "received" ([] : List (String × ℤ)) [("S_A", 0)]) = .ok res) :=
  ⟨C9_exchange_loop_exits_idle.1 [CommEvent.recvClosed] (DataSegment.init "received" [] [("S_A", 0)])
      (.IDLE, DataSegment.init "received" [] [("S_A", 0)]) rfl,
   C9_exchange_loop_exits_idle.2.1 [CommEvent.recvPayload [("S_A", (1:ℤ))] true] CommEvent.recvClosed
      [CommEvent.ioError] (DataSegment.init "received" [] [("S_A", 0)]) rfl,
   C9_exchange_loop_exits_idle.2.2 [CommEvent.recvClosed] (DataSegment.init "received" [] [("S_A", 0)])
      (DataSegment.init_inv "received" [("S_A", 0)])⟩

/-- C10: the claim says a "start"-button hardware event (code `BTN_START`)
forces `MANUAL` and zeroes the motions, and a "select"-button event
(`BTN_SELECT`) sets `ASSISTED`.  `DISPATCH_MAP` routes `BTN_START` to the
`button_select` field and `BTN_SELECT` to `button_start`, so from mode
AUTONOMOUS a `BTN_START` press yields `ASSISTED` (not `MANUAL`), a
`BTN_SELECT` press yields `MANUAL`, and a `BTN_START` press while the
`button_start` shadow state is still held yields `MANUAL` (not `ASSISTED`). -/
theorem C10_start_select_swapped_counterexample :
    (∃ r, dispatchEvent ManualControllerState.mkCtl (controlSeg autoStore) "BTN_START" 1 = .ok r ∧
      readMode r.2 = .ok .ASSISTED ∧ r.1.model = ManualControllerState.mkCtl.model) ∧
    (∃ r, dispatchEvent ManualControllerState.mkCtl (controlSeg autoStore) "BTN_SELECT" 1 = .ok r ∧
      readMode r.2 = .ok .MANUAL) ∧
    (∃ r, dispatchEvent { ManualControllerState.mkCtl with buttonStart := 1 }
        (controlSeg autoStore) "BTN_START" 1 = .ok r ∧
      readMode r.2 = .ok .MANUAL) ∧
    DrivingMode.ASSISTED ≠ DrivingMode.MANUAL := by
  refine ⟨⟨_, rfl, ?_, rfl⟩, ⟨_, rfl, ?_⟩, ⟨_, rfl, ?_⟩, by decide⟩
  · rfl
  · rfl
  · rfl

set_option maxHeartbeats 2000000 in
/-- C10 amended: with the `BTN_START`/`BTN_SELECT` dispatch swap, for every
controller shadow state of the "manual" model and every reachable control
store: a `BTN_SELECT` event (routed to `button_start`) with truthy state
forces `MANUAL` and zeroes all nine motions when the mode was not `MANUAL`,
and changes neither mode nor motions when it already was; a `BTN_START`
event (routed to `button_select`) with truthy state sets `ASSISTED`,
provided the `button_start` shadow state is idle, leaving the motions
unchanged. -/
theorem C10_start_select_swapped_amended (f : String → ℚ) (st : ManualControllerState)
    (hname : st.model.name = "manual") :
    (∀ s : ℤ, s ≠ 0 → (f "driving-mode" = 1 ∨ f "driving-mode" = 2) →
      (dispatchEvent st (controlSeg f) "BTN_SELECT" s).map
        (fun r => (readMode r.2, r.1.model.motionsGet)) = .ok (.ok .MANUAL, idleMotions)) ∧
    (∀ s : ℤ, s ≠ 0 → f "driving-mode" = 0 →
      (dispatchEvent st (controlSeg f) "BTN_SELECT" s).map
        (fun r => (readMode r.2, r.1.model)) = .ok (.ok .MANUAL, st.model)) ∧
    (∀ s : ℤ, s ≠ 0 → st.buttonStart = 0 →
      (f "driving-mode" = 0 ∨ f "driving-mode" = 1 ∨ f "driving-mode" = 2) →
      (dispatchEvent st (controlSeg f) "BTN_START" s).map
        (fun r => (readMode r.2, r.1.model)) = .ok (.ok .ASSISTED, st.model)) := by
  obtain ⟨model, lax, lay, rax, ray, lt, rt, hx, hy, ba, bb, bx, byy, blb, brb, bls, brs, bsel, bst⟩ := st
  obtain ⟨mname, myaw, mpitch, mroll, msway, msurge, mheave, mcord, mgrip, mmicro⟩ := model
  simp only at hname
  subst hname
  refine ⟨?_, ?_, ?_⟩
  · intro s hs hmode
    rcases hmode with h | h <;>
      simp [dispatchEvent, dispatchField, DISPATCH_MAP, cacheLookup,
        ManualControllerState.updateMode, readMode, writeMode, DrivingMode.ofValue,
        DrivingMode.value, controlSeg, controlCache, controlKeys, DATA_CONTROL,
        RK_CONTROL_DRIVING_MODE, DataSegment.getItem, DataSegment.setItem,
        DataSegment.redisKey, DataSegment.update, cacheExists, cacheSet,
        ControlModelState.motionsSet, ControlModelState.motionsGet, idleMotions, dictLookup,
        Motion.setValue_ok, ControlModelState.push, buildKey, CONTROL_NORM_IDLE,
        Except.map, hs, h]
  · intro s hs h
    simp [dispatchEvent, dispatchField, DISPATCH_MAP, cacheLookup,
        ManualControllerState.updateMode, readMode, writeMode, DrivingMode.ofValue,
        DrivingMode.value, controlSeg, controlCache, controlKeys, DATA_CONTROL,
        RK_CONTROL_DRIVING_MODE, DataSegment.getItem, DataSegment.setItem,
        DataSegment.redisKey, DataSegment.update, cacheExists, cacheSet,
        ControlModelState.motionsSet, ControlModelState.motionsGet, idleMotions, dictLookup,
        Motion.setValue_ok, ControlModelState.push, buildKey, CONTROL_NORM_IDLE,
        Except.map, hs, h]
  · intro s hs hbs hmode
    simp only at hbs
    subst hbs
    rcases hmode with h | h | h <;>
      simp [dispatchEvent, dispatchField, DISPATCH_MAP, cacheLookup,
        ManualControllerState.updateMode, readMode, writeMode, DrivingMode.ofValue,
        DrivingMode.value, controlSeg, controlCache, controlKeys, DATA_CONTROL,
        RK_CONTROL_DRIVING_MODE, DataSegment.getItem, DataSegment.setItem,
        DataSegment.redisKey, DataSegment.update, cacheExists, cacheSet,
        ControlModelState.motionsSet, ControlModelState.motionsGet, idleMotions, dictLookup,
        Motion.setValue_ok, ControlModelState.push, buildKey, CONTROL_NORM_IDLE,
        Except.map, hs, h]

/-- Witness for the amended C10 at the fresh controller: `BTN_SELECT` from
AUTONOMOUS forces MANUAL and idles the motions; `BTN_SELECT` while already
MANUAL changes nothing; `BTN_START` from AUTONOMOUS sets ASSISTED. -/
theorem C10_start_select_swapped_amended_witness :
    (dispatchEvent ManualControllerState.mkCtl (controlSeg autoStore) "BTN_SELECT" 1).map
      (fun r => (readMode r.2, r.1.model.motionsGet)) = .ok (.ok .MANUAL, idleMotions) ∧
    (dispatchEvent ManualControllerState.mkCtl (controlSeg zeroStore) "BTN_SELECT" 1).map
      (fun r => (readMode r.2, r.1.model)) = .ok (.ok .MANUAL, ManualControllerState.mkCtl.model) ∧
    (dispatchEvent ManualControllerState.mkCtl (controlSeg autoStore) "BTN_START" 1).map
      (fun r => (readMode r.2, r.1.model)) = .ok (.ok .ASSISTED, ManualControllerState.mkCtl.model) :=
  ⟨(C10_start_select_swapped_amended autoStore ManualControllerState.mkCtl rfl).1 1
      (by decide) (Or.inl rfl),
   (C10_start_select_swapped_amended zeroStore ManualControllerState.mkCtl rfl).2.1 1
      (by decide) rfl,
   (C10_start_select_swapped_amended autoStore ManualControllerState.mkCtl rfl).2.2 1
      (by decide) rfl (Or.inr (Or.inl rfl))⟩


end Surface
